import Mathlib

/-!
# Verification of the order execution pipeline of a Solana DEX engine

Shallow embedding of the backend's quote router, execution engine,
error-classification/retry utilities, job pipeline and WebSocket broadcast
hub, with theorems settling the specification's claims about them.

Sources embedded (TypeScript):
* `src/backend/src/services/dex-router-devnet-hybrid.ts` (`DexRouter`)
* `src/backend/src/utils/errors.ts` (`classifySolanaError`, `withRetry`)
* `src/backend/src/services/order-processor.ts` (`OrderProcessor`)
* `src/backend/src/services/websocket-manager.ts` (`WebSocketManager`)

JavaScript `bigint` values are mapped to `Int`, JavaScript `number`
(floating point) fields that the verified claims treat only symbolically
(prices, fees, slippage fractions) are mapped to `Rat`, and strings to
`String`.
-/

namespace DexEngine

/- ## Data model (`src/backend/src/types/index.ts`) -/

/-- The `DexType` enum (Prisma schema / `pool.dex` field): supported venues. -/
inductive DexType where
  | RAYDIUM
  | METEORA
  deriving Repr, DecidableEq

/-- The `Quote` interface of `src/backend/src/types/index.ts`. -/
structure Quote where
  dex : DexType
  inputAmount : Int
  outputAmount : Int
  price : Rat
  fee : Rat
  poolId : String
  slippage : Rat
  deriving Repr, DecidableEq

/-- The `ExecutionResult` interface of `src/backend/src/types/index.ts`. -/
structure ExecutionResult where
  signature : String
  executedPrice : Rat
  executedAmount : Int
  dex : DexType
  deriving Repr, DecidableEq

/-- The `OrderJobData` interface of `src/backend/src/types/index.ts`. -/
structure OrderJobData where
  orderId : String
  tokenIn : String
  tokenOut : String
  amount : String
  slippage : Rat
  userWallet : String
  timestamp : Int
  deriving Repr, DecidableEq

/-- The `OrderStatus` enum of the Prisma schema, used by the pipeline's
state machine. -/
inductive OrderStatus where
  | PENDING
  | ROUTING
  | BUILDING
  | SUBMITTED
  | CONFIRMED
  | FAILED
  deriving Repr, DecidableEq

/- ## Quote router (`src/backend/src/services/dex-router-devnet-hybrid.ts`) -/

/-- The reducer passed to `Array.prototype.reduce` in
`DexRouter.selectBestQuote` (and `getBestQuote`):
`(best, current) => current.outputAmount > best.outputAmount ? current : best`. -/
def betterQuote (best current : Quote) : Quote :=
  if best.outputAmount < current.outputAmount then current else best

/-- `DexRouter.selectBestQuote` of
`src/backend/src/services/dex-router-devnet-hybrid.ts` (lines 170-189):
returns `null` on an empty array, otherwise reduces the array with
`betterQuote` (JavaScript `reduce` without an initial value starts from the
first element and folds left over the rest). -/
def selectBestQuote (quotes : List Quote) : Option Quote :=
  match quotes with
  | [] => none
  | q :: qs => some (List.foldl betterQuote q qs)

/-- The `ExecutionResult` value returned by the success path of
`DexRouter.executeSwap` (lines 305-310 of
`src/backend/src/services/dex-router-devnet-hybrid.ts`):
`{ signature, executedPrice: quote.price, executedAmount: quote.outputAmount,
dex: quote.dex }`, where `signature` identifies the confirmed on-chain
transaction (a 1-lamport self-transfer carrying the swap memo; the settled
input and output amounts of the simulated pool update are
`quote.inputAmount` and `quote.outputAmount`). -/
def executeSwapResult (quote : Quote) (signature : String) : ExecutionResult :=
  { signature := signature
    executedPrice := quote.price
    executedAmount := quote.outputAmount
    dex := quote.dex }

/- ## Error classification and retry (`src/backend/src/utils/errors.ts`) -/

/-- The `SolanaErrorType` enum of `src/backend/src/utils/errors.ts`. -/
inductive SolanaErrorType where
  | RETRYABLE
  | NON_RETRYABLE
  | LOGIC_ERROR
  deriving Repr, DecidableEq

/-- The `DexEngineError` class of `src/backend/src/utils/errors.ts`:
an `Error` carrying a `code`, an HTTP `statusCode` and a `retryable` flag. -/
structure DexEngineError where
  message : String
  name : String
  code : String
  statusCode : Nat
  retryable : Bool
  deriving Repr, DecidableEq

/-- The `SlippageExceededError` subclass constructor of
`src/backend/src/utils/errors.ts` (lines 41-46): code `SLIPPAGE_EXCEEDED`,
status 400, `retryable := false`. -/
def SlippageExceededError (message : String) : DexEngineError :=
  { message := message
    name := "SlippageExceededError"
    code := "SLIPPAGE_EXCEEDED"
    statusCode := 400
    retryable := false }

/-- The `BlockchainError` subclass constructor of
`src/backend/src/utils/errors.ts` (lines 27-32). -/
def BlockchainError (message : String) (retryable : Bool) : DexEngineError :=
  { message := message
    name := "BlockchainError"
    code := "BLOCKCHAIN_ERROR"
    statusCode := 500
    retryable := retryable }

/-- JavaScript `String.prototype.includes` on character lists: `pat` occurs
as a contiguous substring (the empty pattern always occurs). -/
def charsContain (pat : List Char) : List Char → Bool
  | [] => pat.isEmpty
  | c :: tl => List.isPrefixOf pat (c :: tl) || charsContain pat tl

/-- JavaScript `message.includes(pat)` for strings. -/
def strIncludes (s pat : String) : Bool :=
  charsContain pat.data s.data

/-- JavaScript `String.prototype.toLowerCase` restricted to the ASCII error
messages the classifier inspects: lowercases every character. -/
def strToLower (s : String) : String :=
  String.mk (s.data.map Char.toLower)

/-- `classifySolanaError` of `src/backend/src/utils/errors.ts` (lines
72-115): lowercases the error message and classifies it by substring
matching — network/timing markers are `RETRYABLE`, user/config markers are
`NON_RETRYABLE`, business-logic markers (slippage among them) are
`LOGIC_ERROR`, and anything unknown defaults to `RETRYABLE`. -/
def classifySolanaError (message : String) : SolanaErrorType :=
  let m := strToLower message
  if strIncludes m "blockhash not found" ||
      strIncludes m "transaction expired" ||
      strIncludes m "network error" ||
      strIncludes m "timeout" ||
      strIncludes m "429" ||
      strIncludes m "rate limit" ||
      strIncludes m "node is unhealthy" ||
      strIncludes m "connection" ||
      strIncludes m "econnreset" then
    SolanaErrorType.RETRYABLE
  else if strIncludes m "insufficient funds" ||
      strIncludes m "invalid signature" ||
      strIncludes m "account not found" ||
      strIncludes m "invalid account data" ||
      strIncludes m "invalid public key" ||
      strIncludes m "invalid keypair" then
    SolanaErrorType.NON_RETRYABLE
  else if strIncludes m "slippage" ||
      strIncludes m "pool not found" ||
      strIncludes m "invalid mint" ||
      strIncludes m "insufficient liquidity" ||
      strIncludes m "price impact too high" then
    SolanaErrorType.LOGIC_ERROR
  else
    SolanaErrorType.RETRYABLE

/-- The `for (let attempt = 0; attempt < maxRetries; attempt++)` loop of
`withRetry` (`src/backend/src/utils/errors.ts`, lines 120-169), with the
operation's outcome on each attempt given by `op`. The `fuel` argument is
`maxRetries - attempt`, so the recursion mirrors the loop guard exactly.
Returns the outcome (`none` models falling out of the loop with the
undefined `lastError`, reachable only with `maxRetries = 0`) together with
the number of times the operation was invoked. On an error the loop
rethrows immediately only when `classifySolanaError` says `NON_RETRYABLE`
or when the final attempt was reached; otherwise it sleeps the exponential
backoff delay (irrelevant to the embedded state) and retries. -/
def withRetryGo {α : Type} (op : Nat → Except DexEngineError α) (maxRetries : Nat) :
    Nat → Nat → Option (Except DexEngineError α) × Nat
  | attempt, 0 => (none, attempt)
  | attempt, fuel + 1 =>
    match op attempt with
    | Except.ok v => (some (Except.ok v), attempt + 1)
    | Except.error e =>
      if classifySolanaError e.message = SolanaErrorType.NON_RETRYABLE then
        (some (Except.error e), attempt + 1)
      else if attempt = maxRetries - 1 then
        (some (Except.error e), attempt + 1)
      else
        withRetryGo op maxRetries (attempt + 1) fuel

/-- `withRetry` of `src/backend/src/utils/errors.ts`: runs the loop from
attempt 0 (the source's default attempt ceiling is `maxRetries = 3`). -/
def withRetry {α : Type} (op : Nat → Except DexEngineError α) (maxRetries : Nat) :
    Option (Except DexEngineError α) × Nat :=
  withRetryGo op maxRetries 0 maxRetries

/-- An operation that fails with `SlippageExceededError` on every attempt. -/
def slippageOp : Nat → Except DexEngineError Unit :=
  fun _ => Except.error (SlippageExceededError "Slippage tolerance exceeded")

/- ## Job pipeline (`src/backend/src/services/order-processor.ts`) -/

/-- One observable effect of `OrderProcessor.updateOrderStatus`
(`order-processor.ts`, lines 221-244): the database write
(`prisma.order.update`) and the broadcast (`wsManager.broadcastOrderUpdate`). -/
inductive StatusAction where
  | persisted (orderId : String) (status : OrderStatus)
  | emitted (orderId : String) (status : OrderStatus)
  deriving Repr, DecidableEq

/-- `OrderProcessor.updateOrderStatus` (`order-processor.ts`, lines
221-244): `await prisma.order.update(...)`, then
`wsManager.broadcastOrderUpdate(...)`. The outcome of the awaited database
write is `persistResult`; when it rejects, the thrown error propagates and
the broadcast line is never reached. Returns the list of performed actions
in program order and the propagated error, if any. -/
def updateOrderStatus (persistResult : Except String Unit) (orderId : String)
    (status : OrderStatus) : List StatusAction × Option String :=
  match persistResult with
  | Except.error e => ([], some e)
  | Except.ok _ =>
    ([StatusAction.persisted orderId status, StatusAction.emitted orderId status], none)

/-- Result of one run of the worker handler of `OrderProcessor.setupWorker`
(`order-processor.ts`, lines 76-198): the status transitions it performed
(in order), the `retryCount` recorded with a FAILED transition, and whether
the handler returned or rethrew. -/
structure AttemptResult where
  statuses : List OrderStatus
  recordedRetryCount : Option Nat
  outcome : Except String Unit
  deriving Repr

/-- The worker handler of `OrderProcessor.setupWorker` (`order-processor.ts`,
lines 76-198) on one job attempt: update to ROUTING, get quotes
(`quotesRes` is the outcome of `dexRouter.getQuotes`), `selectBestQuote`,
throw `'No valid quotes available'` when it returns `null`, update to
BUILDING, execute the swap (`execRes` is the outcome of
`dexRouter.executeSwap` on the selected quote), update to SUBMITTED then
CONFIRMED. The catch block (lines 176-197) updates the order to FAILED with
`retryCount: job.attemptsMade` (the number of previously completed
attempts, `attemptsMade`) and rethrows the error so the queue layer decides
about a retry. -/
def processOrderAttempt (quotesRes : Except String (List Quote))
    (execRes : Quote → Except String ExecutionResult) (attemptsMade : Nat) : AttemptResult :=
  match quotesRes with
  | Except.error e =>
    { statuses := [OrderStatus.ROUTING, OrderStatus.FAILED]
      recordedRetryCount := some attemptsMade
      outcome := Except.error e }
  | Except.ok quotes =>
    match selectBestQuote quotes with
    | none =>
      { statuses := [OrderStatus.ROUTING, OrderStatus.FAILED]
        recordedRetryCount := some attemptsMade
        outcome := Except.error "No valid quotes available" }
    | some best =>
      match execRes best with
      | Except.error e =>
        { statuses := [OrderStatus.ROUTING, OrderStatus.BUILDING, OrderStatus.FAILED]
          recordedRetryCount := some attemptsMade
          outcome := Except.error e }
      | Except.ok _ =>
        { statuses := [OrderStatus.ROUTING, OrderStatus.BUILDING,
            OrderStatus.SUBMITTED, OrderStatus.CONFIRMED]
          recordedRetryCount := none
          outcome := Except.ok () }

/-- Whether a handler run rethrew. -/
def attemptFailed (r : AttemptResult) : Bool :=
  match r.outcome with
  | Except.ok _ => false
  | Except.error _ => true

/-- Modelled from the spec: the retry behaviour of the job-queue library
(BullMQ, configured in the `OrderProcessor` constructor, `order-processor.ts`
lines 26-42, with `attempts: env.ORDER_RETRY_ATTEMPTS` — default 3 — and
exponential backoff) is not part of the repository's own sources; per the
spec, "on any step failure, the pipeline re-enqueues the job with an
incremented attempt counter and an exponential backoff delay, up to a
configured attempt ceiling". `handler k` is the worker handler run with
`attemptsMade = k`; the `fuel` argument is `attempts - attempt`. Returns
how many times the handler ran. -/
def runJobGo (handler : Nat → AttemptResult) (attempts : Nat) : Nat → Nat → Nat
  | attempt, 0 => attempt
  | attempt, fuel + 1 =>
    if attemptFailed (handler attempt) then
      if attempt + 1 < attempts then runJobGo handler attempts (attempt + 1) fuel
      else attempt + 1
    else attempt + 1

/-- Total number of worker-handler executions for one job under the queue's
retry policy with the given attempt ceiling. -/
def jobExecutions (handler : Nat → AttemptResult) (attempts : Nat) : Nat :=
  runJobGo handler attempts 0 attempts

/- ## Order submission (`OrderProcessor.submitOrder`) -/

/-- A job held by the `order-processing` queue. -/
structure QueuedJob where
  jobId : String
  name : String
  data : OrderJobData
  priority : Nat
  deriving Repr, DecidableEq

/-- Modelled from the spec: the queue library's `add` (BullMQ) with an
explicitly supplied `jobId` is not part of the repository's own sources;
per the spec, the "job identifier acts as a dedupe/ownership key at the
queue level", so adding a job whose `jobId` is already present leaves the
queue unchanged. -/
def queueAdd (q : List QueuedJob) (name : String) (data : OrderJobData)
    (jobId : String) (priority : Nat) : List QueuedJob :=
  if q.any (fun j => j.jobId == jobId) then q
  else q ++ [{ jobId := jobId, name := name, data := data, priority := priority }]

/-- `OrderProcessor.submitOrder` (`order-processor.ts`, lines 59-70): adds a
`'process-order'` job with `jobId: orderData.orderId` and `priority: 1`. -/
def submitOrder (q : List QueuedJob) (orderData : OrderJobData) : List QueuedJob :=
  queueAdd q "process-order" orderData orderData.orderId 1

/-- Number of jobs in the queue whose `jobId` is the given order id. -/
def countJobsFor (q : List QueuedJob) (orderId : String) : Nat :=
  (q.filter (fun j => j.jobId == orderId)).length

/- ## Broadcast hub (`src/backend/src/services/websocket-manager.ts`) -/

/-- The state of an underlying WebSocket transport object referenced by a
registered connection: its identity (JavaScript object identity of the
socket, used by `removeConnection`'s `client.socket === connection` check),
its `readyState` (`1` is OPEN), and whether its `send`/`terminate` methods
throw when called. -/
structure SocketState where
  handle : Nat
  readyState : Nat
  sendThrows : Bool
  terminateThrows : Bool
  deriving Repr, DecidableEq

/-- The `ClientConnection` interface of `src/backend/src/types/index.ts`
(the `connectedAt` timestamp is not modelled: no embedded operation reads
it). -/
structure ClientConnection where
  orderId : String
  socket : SocketState
  isAlive : Bool
  deriving Repr, DecidableEq

/-- The `WebSocketManager.clients` registry:
`Map<string, Set<ClientConnection>>` in JavaScript insertion order. -/
abbrev Registry := List (String × List ClientConnection)

/-- `this.clients.has(orderId)`. -/
def hasOrder (reg : Registry) (orderId : String) : Bool :=
  reg.any (fun p => p.1 == orderId)

/-- `this.clients.get(orderId)`, with a missing key read as the empty set
(the source always guards the `undefined` case before using the set). -/
def connsOf (reg : Registry) (orderId : String) : List ClientConnection :=
  match reg.find? (fun p => p.1 == orderId) with
  | none => []
  | some p => p.2

/-- `WebSocketManager.addConnection` (`websocket-manager.ts`, lines 15-35):
builds a fresh client record with `isAlive: true`, inserts an empty set
under `orderId` if the key is missing, and adds the client to the set. -/
def addConnection (reg : Registry) (orderId : String) (sock : SocketState) : Registry :=
  let client : ClientConnection := { orderId := orderId, socket := sock, isAlive := true }
  if hasOrder reg orderId then
    reg.map (fun p => if p.1 == orderId then (p.1, p.2 ++ [client]) else p)
  else
    reg ++ [(orderId, [client])]

/-- The removal loop of `WebSocketManager.removeConnection`: deletes the
first client of the set whose `socket` is the given connection (the loop
breaks after the first match). -/
def removeFirstClient (sock : SocketState) : List ClientConnection → List ClientConnection
  | [] => []
  | c :: cs => if c.socket = sock then cs else c :: removeFirstClient sock cs

/-- `WebSocketManager.removeConnection` (`websocket-manager.ts`, lines
40-58): returns unchanged when the key is missing; otherwise removes the
first matching client and deletes the key when its set became empty. -/
def removeConnection (reg : Registry) (orderId : String) (sock : SocketState) : Registry :=
  if hasOrder reg orderId then
    reg.filterMap (fun p =>
      if p.1 == orderId then
        let cs := removeFirstClient sock p.2
        if cs.isEmpty then none else some (p.1, cs)
      else some p)
  else reg

/-- `WebSocketManager.sendToClient` (`websocket-manager.ts`, lines 104-120):
sends when `readyState === 1` and returns `true` unless the socket is not
open (returns `false`) or `send` throws (caught, returns `false`). -/
def sendToClient (c : ClientConnection) : Bool :=
  (c.socket.readyState == 1) && !c.socket.sendThrows

/-- `WebSocketManager.broadcastOrderUpdate` (`websocket-manager.ts`, lines
63-99): looks up only the connection set registered under `orderId` (absent
or empty set: logs and returns), calls `sendToClient` for each registered
client, counting successes and failures. The registry is returned as the
method leaves it: unchanged — no connection is removed on a failed send.
Result: (registry after the call, handles of the sockets that received the
message, `successCount`, `failCount`). -/
def broadcastOrderUpdate (reg : Registry) (orderId : String) :
    Registry × List Nat × Nat × Nat :=
  let conns := connsOf reg orderId
  if conns.isEmpty then (reg, [], 0, 0)
  else
    let delivered := (conns.filter sendToClient).map (fun c => c.socket.handle)
    (reg, delivered, delivered.length, conns.length - delivered.length)

/-- The per-client body of the heartbeat sweep of
`WebSocketManager.startHeartbeat` (`websocket-manager.ts`, lines 130-166):
a client that failed the previous liveness check is terminated and removed
(kept untouched when `terminate()` throws — the `delete` is skipped); a
live client is marked `isAlive := false` and pinged (a throwing `ping` is
caught and changes nothing). -/
def sweepClient (c : ClientConnection) : Option ClientConnection :=
  if c.isAlive then some { c with isAlive := false }
  else if c.socket.terminateThrows then some c
  else none

/-- One pass of the heartbeat interval callback
(`websocket-manager.ts`, lines 130-166): sweeps every order's set and
deletes keys whose sets became empty. -/
def heartbeatSweep (reg : Registry) : Registry :=
  reg.filterMap (fun p =>
    let cs := p.2.filterMap sweepClient
    if cs.isEmpty then none else some (p.1, cs))

/-- `WebSocketManager.closeAll` (`websocket-manager.ts`, lines 208-226):
closes every socket (throwing `close` calls are caught) and clears the
registry. -/
def closeAll (_reg : Registry) : Registry := []

/-- `WebSocketManager.getConnectionCount`: `this.clients.get(orderId)?.size || 0`. -/
def getConnectionCount (reg : Registry) (orderId : String) : Nat :=
  (connsOf reg orderId).length

/-- The `totalOrders` statistic (`this.clients.size`, logged by `closeAll`). -/
def statsTotalOrders (reg : Registry) : Nat :=
  reg.length

/-- Registry invariant: every order key present in the registry maps to a
non-empty connection set. -/
def RegOk (reg : Registry) : Prop :=
  ∀ p ∈ reg, p.2 ≠ []

/- ## Concrete fixtures used by counterexamples and witnesses -/

/-- A quote whose `price` field does not equal its output/input ratio. -/
def cexQuote : Quote :=
  { dex := DexType.RAYDIUM
    inputAmount := 2
    outputAmount := 1
    price := 5
    fee := 1 / 400
    poolId := "pool-x"
    slippage := 1 / 100 }

/-- A realistic SOL→USDC quote. -/
def sampleQuote : Quote :=
  { dex := DexType.RAYDIUM
    inputAmount := 1000000000
    outputAmount := 99000000
    price := 99 / 1000
    fee := 1 / 400
    poolId := "sol-usdc"
    slippage := 1 / 100 }

/-- The worker handler of a job whose quotes arrive normally but whose
execution step fails with a slippage error on every attempt. -/
def slipHandler : Nat → AttemptResult :=
  fun k =>
    processOrderAttempt (Except.ok [sampleQuote])
      (fun _ => Except.error "Slippage tolerance exceeded") k

/-- Sample order submission data. -/
def sampleOrder : OrderJobData :=
  { orderId := "order-1"
    tokenIn := "So11111111111111111111111111111111111111112"
    tokenOut := "4zMMC9srt5Ri5X14GAgXhaHii3GnPAEERYPJgZJDncDU"
    amount := "1000000000"
    slippage := 1 / 100
    userWallet := "7xKXtg2CW87d97TXJSDpbD5jBkheTqA83TZRuJosgAsU"
    timestamp := 1700000000000 }

/-- An open, healthy socket. -/
def openSock : SocketState :=
  { handle := 1, readyState := 1, sendThrows := false, terminateThrows := false }

/-- A socket whose `readyState` is CLOSED (3). -/
def closedSock : SocketState :=
  { handle := 2, readyState := 3, sendThrows := false, terminateThrows := false }

/-- A second open socket, observing a different order. -/
def otherSock : SocketState :=
  { handle := 3, readyState := 1, sendThrows := false, terminateThrows := false }

/-- A live registered client of `order-1` on the open socket. -/
def openClient : ClientConnection :=
  { orderId := "order-1", socket := openSock, isAlive := true }

/-- A registered client of `order-1` whose socket is already closed. -/
def closedClient : ClientConnection :=
  { orderId := "order-1", socket := closedSock, isAlive := true }

/-- A client registered only under `order-2`. -/
def otherClient : ClientConnection :=
  { orderId := "order-2", socket := otherSock, isAlive := true }

/-- Registry of `order-1` with one live and one dead connection. -/
def cexRegistry : Registry :=
  [("order-1", [openClient, closedClient])]

/-- Registry with observers of two distinct orders. -/
def twoOrderRegistry : Registry :=
  [("order-1", [openClient]), ("order-2", [otherClient])]

/- ## Helper lemmas -/

/-- Accumulator bound for the `selectBestQuote` reducer: the accumulator's
output amount never decreases along the fold. -/
theorem foldl_betterQuote_acc_le (qs : List Quote) : ∀ q : Quote,
    q.outputAmount ≤ (List.foldl betterQuote q qs).outputAmount := by
  induction qs with
  | nil => intro q; exact le_refl _
  | cons x xs ih =>
    intro q
    have hstep : q.outputAmount ≤ (betterQuote q x).outputAmount := by
      unfold betterQuote
      split
      · exact le_of_lt (by assumption)
      · exact le_refl _
    exact le_trans hstep (ih (betterQuote q x))

/-- Structure of the `selectBestQuote` fold: the result splits the input list
into a strictly-smaller prefix, the result itself, and a no-larger suffix. -/
theorem foldl_betterQuote_decomp (qs : List Quote) : ∀ q : Quote,
    ∃ l1 l2 : List Quote,
      q :: qs = l1 ++ (List.foldl betterQuote q qs) :: l2 ∧
      (∀ p ∈ l1, p.outputAmount < (List.foldl betterQuote q qs).outputAmount) ∧
      (∀ p ∈ l2, p.outputAmount ≤ (List.foldl betterQuote q qs).outputAmount) := by
  induction qs with
  | nil =>
    intro q
    refine ⟨[], [], rfl, ?_, ?_⟩ <;> exact fun p hp => absurd hp (List.not_mem_nil p)
  | cons x xs ih =>
    intro q
    by_cases h : q.outputAmount < x.outputAmount
    · have hstep : betterQuote q x = x := by unfold betterQuote; simp [h]
      have hfold : List.foldl betterQuote q (x :: xs) = List.foldl betterQuote x xs := by
        simp [List.foldl, hstep]
      obtain ⟨l1, l2, hsplit, hlt, hle⟩ := ih x
      refine ⟨q :: l1, l2, ?_, ?_, ?_⟩
      · rw [hfold]
        simpa using congrArg (q :: ·) hsplit
      · intro p hp
        rw [hfold]
        rcases List.mem_cons.mp hp with hpq | hpl
        · subst hpq
          have hx : x.outputAmount ≤ (List.foldl betterQuote x xs).outputAmount :=
            foldl_betterQuote_acc_le xs x
          exact lt_of_lt_of_le h hx
        · exact hlt p hpl
      · intro p hp
        rw [hfold]
        exact hle p hp
    · have hstep : betterQuote q x = q := by unfold betterQuote; simp [h]
      have hfold : List.foldl betterQuote q (x :: xs) = List.foldl betterQuote q xs := by
        simp [List.foldl, hstep]
      obtain ⟨l1, l2, hsplit, hlt, hle⟩ := ih q
      have hxq : x.outputAmount ≤ q.outputAmount := le_of_not_lt h
      cases l1 with
      | nil =>
        have hq : q = List.foldl betterQuote q xs := by
          simpa using congrArg (fun l => l.head?) hsplit
        have hl2 : xs = l2 := by
          simpa using congrArg (fun l => l.tail) hsplit
        refine ⟨[], x :: xs, ?_, ?_, ?_⟩
        · rw [hfold, ← hq]
          rfl
        · intro p hp; cases hp
        · intro p hp
          rw [hfold, ← hq]
          rcases List.mem_cons.mp hp with hpx | hpl
          · subst hpx; exact hxq
          · have := hle p (by rwa [← hl2])
            rwa [← hq] at this
      | cons y l1t =>
        have hy : y = q := by
          have := congrArg (fun l => l.head?) hsplit
          simpa using this.symm
        have hxs : xs = l1t ++ (List.foldl betterQuote q xs) :: l2 := by
          have := congrArg (fun l => l.tail) hsplit
          simpa using this
        have hqlt : q.outputAmount < (List.foldl betterQuote q xs).outputAmount := by
          have := hlt y (List.mem_cons_self y l1t)
          rwa [hy] at this
        refine ⟨q :: x :: l1t, l2, ?_, ?_, ?_⟩
        · rw [hfold]
          conv_lhs => rw [hxs]
          simp
        · intro p hp
          rw [hfold]
          rcases List.mem_cons.mp hp with hpq | hp2
          · subst hpq; exact hqlt
          rcases List.mem_cons.mp hp2 with hpx | hpl
          · subst hpx; exact lt_of_le_of_lt hxq hqlt
          · exact hlt p (List.mem_cons_of_mem y hpl)
        · intro p hp
          rw [hfold]
          exact hle p hp

/-- A handler that fails on every attempt makes `runJobGo` consume the whole
attempt ceiling. -/
theorem runJobGo_all_fail (handler : Nat → AttemptResult)
    (hfail : ∀ k, attemptFailed (handler k) = true) (attempts : Nat) :
    ∀ fuel attempt, attempts - attempt = fuel → attempt < attempts →
      runJobGo handler attempts attempt fuel = attempts := by
  intro fuel
  induction fuel with
  | zero =>
    intro attempt hfuel hlt
    omega
  | succ n ih =>
    intro attempt hfuel hlt
    rw [runJobGo, hfail attempt]
    simp only [if_true]
    by_cases hnext : attempt + 1 < attempts
    · rw [if_pos hnext]
      exact ih (attempt + 1) (by omega) hnext
    · rw [if_neg hnext]
      omega

/-- Every branch of the worker handler that ends in an execution error
rethrows and records `retryCount = attemptsMade` with the FAILED transition. -/
theorem processOrderAttempt_fail_shape (quotesRes : Except String (List Quote))
    (emsg : String) (k : Nat) :
    (processOrderAttempt quotesRes (fun _ => Except.error emsg) k).statuses.getLast? =
      some OrderStatus.FAILED ∧
    (processOrderAttempt quotesRes (fun _ => Except.error emsg) k).recordedRetryCount = some k ∧
    attemptFailed (processOrderAttempt quotesRes (fun _ => Except.error emsg) k) = true := by
  match quotesRes with
  | Except.error e => exact ⟨rfl, rfl, rfl⟩
  | Except.ok quotes =>
    match hsel : selectBestQuote quotes with
    | none => simp [processOrderAttempt, hsel, attemptFailed]
    | some best => simp [processOrderAttempt, hsel, attemptFailed]

/-- Adding a job whose `jobId` is already present leaves the queue as is. -/
theorem queueAdd_noop (q : List QueuedJob) (name : String) (data : OrderJobData)
    (jobId : String) (priority : Nat)
    (h : q.any (fun j => j.jobId == jobId) = true) :
    queueAdd q name data jobId priority = q := by
  unfold queueAdd
  rw [if_pos h]

/-- Adding a job with a fresh `jobId` appends it. -/
theorem queueAdd_fresh (q : List QueuedJob) (name : String) (data : OrderJobData)
    (jobId : String) (priority : Nat)
    (h : q.any (fun j => j.jobId == jobId) = false) :
    queueAdd q name data jobId priority =
      q ++ [{ jobId := jobId, name := name, data := data, priority := priority }] := by
  unfold queueAdd
  rw [if_neg (by simp [h])]

/-- The delivered component of a broadcast: the handles of the
successfully-sent connections registered under the order. -/
theorem broadcast_delivered_eq (reg : Registry) (a : String) :
    (broadcastOrderUpdate reg a).2.1 =
      ((connsOf reg a).filter sendToClient).map (fun c => c.socket.handle) := by
  unfold broadcastOrderUpdate
  by_cases hempty : (connsOf reg a).isEmpty
  · have hnil : connsOf reg a = [] := by
      cases hc : connsOf reg a with
      | nil => rfl
      | cons x xs => rw [hc] at hempty; cases hempty
    simp [hempty, hnil]
  · simp [hempty]

/- ## Claims -/

/-- C1: For every non-empty list of quotes, `selectBestQuote` returns a quote
`r` of the list such that every quote strictly before `r` in the list has a
strictly smaller `outputAmount` and every quote after `r` has an
`outputAmount` at most that of `r`: `r` attains the maximum `outputAmount`
and is the earliest quote of the list attaining it (ties are decided by
position only; the fee field plays no role). -/
theorem selectBestQuote_max_earliest (q : Quote) (qs : List Quote) :
    ∃ r : Quote, ∃ l1 l2 : List Quote,
      selectBestQuote (q :: qs) = some r ∧
      q :: qs = l1 ++ r :: l2 ∧
      (∀ p ∈ l1, p.outputAmount < r.outputAmount) ∧
      (∀ p ∈ l2, p.outputAmount ≤ r.outputAmount) := by
  obtain ⟨l1, l2, hsplit, hlt, hle⟩ := foldl_betterQuote_decomp qs q
  exact ⟨List.foldl betterQuote q qs, l1, l2, rfl, hsplit, hlt, hle⟩

/-- C9: `selectBestQuote` applied to the empty list returns `none` (the
`null` of the source); being a total function it raises no error. -/
theorem selectBestQuote_nil : selectBestQuote [] = none := rfl

/-- C2 counterexample: for a quote whose `price` field (5) differs from its
output/input ratio (1/2), `executeSwap` returns `executedPrice = 5`: the
price field copied verbatim from the input quote, not the ratio of the
settled output amount to the settled input amount — the claim fails. -/
theorem executeSwapResult_price_not_ratio :
    (executeSwapResult cexQuote "sig").executedPrice = cexQuote.price ∧
    (executeSwapResult cexQuote "sig").executedPrice ≠
      ((executeSwapResult cexQuote "sig").executedAmount : Rat) /
        (cexQuote.inputAmount : Rat) := by
  constructor
  · rfl
  · intro hcontra
    norm_num [executeSwapResult, cexQuote] at hcontra

/-- C2 (amended): `executeSwap` returns the quote's `price` field verbatim as
`executedPrice` and the quote's `outputAmount` verbatim as
`executedAmount`; the executed price therefore equals the settled
output/input ratio exactly when the quote's own `price` field already
equals that ratio. -/
theorem executeSwapResult_copies_quote (quote : Quote) (signature : String) :
    (executeSwapResult quote signature).executedPrice = quote.price ∧
    (executeSwapResult quote signature).executedAmount = quote.outputAmount ∧
    (executeSwapResult quote signature).signature = signature ∧
    (executeSwapResult quote signature).dex = quote.dex :=
  ⟨rfl, rfl, rfl, rfl⟩

/-- C3: the claim fails on the code and the code contradicts its own error
taxonomy — a slippage error is classified `LOGIC_ERROR` (not
`NON_RETRYABLE`), and `withRetry` rethrows immediately only for
`NON_RETRYABLE`, so an operation that keeps failing with
`SlippageExceededError` (whose own `retryable` flag is `false`) is invoked
3 times under the default ceiling instead of propagating after the first
attempt. -/
theorem withRetry_retries_slippage_error :
    classifySolanaError "Slippage tolerance exceeded" = SolanaErrorType.LOGIC_ERROR ∧
    (SlippageExceededError "Slippage tolerance exceeded").retryable = false ∧
    withRetry slippageOp 3 =
      (some (Except.error (SlippageExceededError "Slippage tolerance exceeded")), 3) := by
  refine ⟨by decide, rfl, by rfl⟩

/-- C4 counterexample: when execution fails with a slippage error on the
first attempt, the worker does record FAILED during that attempt (with
`retryCount = attemptsMade = 0`, not 1), but the rethrown error makes the
queue re-enqueue the job: under the default attempt ceiling 3 the handler
runs 3 times, so the job IS re-enqueued for pipeline-level retries — the
claim fails. -/
theorem pipeline_reenqueues_slippage :
    (slipHandler 0).statuses.getLast? = some OrderStatus.FAILED ∧
    (slipHandler 0).recordedRetryCount = some 0 ∧
    jobExecutions slipHandler 3 = 3 := by
  refine ⟨by rfl, by rfl, by rfl⟩

/-- C4 (amended): on an execution failure (slippage included) the worker
immediately records FAILED with `retryCount = job.attemptsMade` (the number
of previously completed attempts — 0 on the first attempt) and rethrows,
and the queue re-enqueues the job regardless of the error's class until the
attempt ceiling is exhausted: with a persistent failure and ceiling
`attempts > 0`, the handler runs exactly `attempts` times. -/
theorem pipeline_retries_every_failure (quotesRes : Except String (List Quote))
    (emsg : String) (attempts : Nat) (hpos : 0 < attempts) :
    (∀ k : Nat,
      (processOrderAttempt quotesRes (fun _ => Except.error emsg) k).statuses.getLast? =
        some OrderStatus.FAILED ∧
      (processOrderAttempt quotesRes (fun _ => Except.error emsg) k).recordedRetryCount =
        some k) ∧
    jobExecutions (fun k => processOrderAttempt quotesRes (fun _ => Except.error emsg) k)
      attempts = attempts := by
  constructor
  · intro k
    obtain ⟨h1, h2, _⟩ := processOrderAttempt_fail_shape quotesRes emsg k
    exact ⟨h1, h2⟩
  · exact runJobGo_all_fail _
      (fun k => (processOrderAttempt_fail_shape quotesRes emsg k).2.2)
      attempts attempts 0 (by omega) hpos

/-- C4 witness: the amended theorem applied to the slippage-failing job with
the default ceiling 3. -/
theorem pipeline_retries_every_failure_witness :
    0 < 3 ∧
    ((∀ k : Nat,
      (processOrderAttempt (Except.ok [sampleQuote])
        (fun _ => Except.error "Slippage tolerance exceeded") k).statuses.getLast? =
          some OrderStatus.FAILED ∧
      (processOrderAttempt (Except.ok [sampleQuote])
        (fun _ => Except.error "Slippage tolerance exceeded") k).recordedRetryCount =
          some k) ∧
    jobExecutions (fun k => processOrderAttempt (Except.ok [sampleQuote])
      (fun _ => Except.error "Slippage tolerance exceeded") k) 3 = 3) :=
  ⟨by decide,
   pipeline_retries_every_failure (Except.ok [sampleQuote])
     "Slippage tolerance exceeded" 3 (by decide)⟩

/-- C5: `updateOrderStatus` persists the new status before emitting it: when
the database write rejects, the error propagates and nothing is emitted;
when it succeeds, exactly one event is emitted, after the persistence
action; in every trace an emission is preceded by its persistence. -/
theorem updateOrderStatus_persist_before_emit (persistResult : Except String Unit)
    (orderId : String) (status : OrderStatus) :
    (∀ e : String, persistResult = Except.error e →
      updateOrderStatus persistResult orderId status = ([], some e)) ∧
    (persistResult = Except.ok () →
      updateOrderStatus persistResult orderId status =
        ([StatusAction.persisted orderId status, StatusAction.emitted orderId status],
          none)) ∧
    (∀ i : String, ∀ s : OrderStatus,
      StatusAction.emitted i s ∈ (updateOrderStatus persistResult orderId status).1 →
      (updateOrderStatus persistResult orderId status).1 =
        [StatusAction.persisted i s, StatusAction.emitted i s]) := by
  match persistResult with
  | Except.error e =>
    refine ⟨?_, ?_, ?_⟩
    · intro e2 he
      injection he with he2
      rw [he2]
      rfl
    · intro h; cases h
    · intro i s hmem
      simp [updateOrderStatus] at hmem
  | Except.ok u =>
    refine ⟨?_, ?_, ?_⟩
    · intro e2 he; cases he
    · intro _; rfl
    · intro i s hmem
      simp only [updateOrderStatus, List.mem_cons, List.not_mem_nil, or_false] at hmem
      rcases hmem with hmem | hmem
      · cases hmem
      · cases hmem
        rfl

/-- C5 witness: a rejected write emits nothing; a successful write persists
then emits. -/
theorem updateOrderStatus_persist_before_emit_witness :
    updateOrderStatus (Except.error "db down") "order-1" OrderStatus.ROUTING =
      ([], some "db down") ∧
    updateOrderStatus (Except.ok ()) "order-1" OrderStatus.ROUTING =
      ([StatusAction.persisted "order-1" OrderStatus.ROUTING,
        StatusAction.emitted "order-1" OrderStatus.ROUTING], none) :=
  ⟨(updateOrderStatus_persist_before_emit (Except.error "db down") "order-1"
      OrderStatus.ROUTING).1 "db down" rfl,
   (updateOrderStatus_persist_before_emit (Except.ok ()) "order-1"
      OrderStatus.ROUTING).2.1 rfl⟩

/-- C6: publishing to order `a` delivers only to sockets registered under
`a`: every delivered handle belongs to a connection of `a`, and a
connection registered under a different order `b` whose socket is not also
registered under `a` never receives the event. -/
theorem broadcastOrderUpdate_isolated (reg : Registry) (a b : String)
    (c : ClientConnection) (_hab : a ≠ b) (_hb : c ∈ connsOf reg b)
    (hnota : ∀ c2 ∈ connsOf reg a, c2.socket.handle ≠ c.socket.handle) :
    (∀ h ∈ (broadcastOrderUpdate reg a).2.1,
      ∃ c2 ∈ connsOf reg a, c2.socket.handle = h) ∧
    c.socket.handle ∉ (broadcastOrderUpdate reg a).2.1 := by
  have hdeliv : ∀ h ∈ (broadcastOrderUpdate reg a).2.1,
      ∃ c2 ∈ connsOf reg a, c2.socket.handle = h := by
    intro h hmem
    rw [broadcast_delivered_eq] at hmem
    obtain ⟨c2, hc2, hh⟩ := List.mem_map.mp hmem
    exact ⟨c2, (List.mem_filter.mp hc2).1, hh⟩
  refine ⟨hdeliv, ?_⟩
  intro hmem
  obtain ⟨c2, hc2, hh⟩ := hdeliv c.socket.handle hmem
  exact hnota c2 hc2 hh

/-- C6 witness: in a registry with observers of `order-1` and `order-2`,
publishing to `order-1` does not reach the `order-2` observer. -/
theorem broadcastOrderUpdate_isolated_witness :
    ("order-1" : String) ≠ "order-2" ∧
    otherClient ∈ connsOf twoOrderRegistry "order-2" ∧
    (∀ c2 ∈ connsOf twoOrderRegistry "order-1",
      c2.socket.handle ≠ otherClient.socket.handle) ∧
    ((∀ h ∈ (broadcastOrderUpdate twoOrderRegistry "order-1").2.1,
      ∃ c2 ∈ connsOf twoOrderRegistry "order-1", c2.socket.handle = h) ∧
    otherClient.socket.handle ∉ (broadcastOrderUpdate twoOrderRegistry "order-1").2.1) :=
  ⟨by decide, by decide, by decide,
   broadcastOrderUpdate_isolated twoOrderRegistry "order-1" "order-2" otherClient
     (by decide) (by decide) (by decide)⟩

/-- C7: evaluation at the failing input — publishing to an order with one
live and one closed connection delivers to the live one (success 1,
failure 1) but leaves the registry exactly as it was: the closed connection
is still registered after the publish, contradicting the claimed (and
tested) lazy cleanup. -/
theorem broadcastOrderUpdate_keeps_failed_connection :
    (broadcastOrderUpdate cexRegistry "order-1").1 = cexRegistry ∧
    closedClient ∈ connsOf (broadcastOrderUpdate cexRegistry "order-1").1 "order-1" ∧
    (broadcastOrderUpdate cexRegistry "order-1").2.1 = [1] ∧
    (broadcastOrderUpdate cexRegistry "order-1").2.2 = (1, 1) := by
  refine ⟨by rfl, by decide, by rfl, by rfl⟩

/-- C8: submission is idempotent on the order identifier — the second
`submitOrder` with the same `orderId` leaves the queue unchanged, and
starting from a queue that holds no job for that identifier, exactly one
job for it exists after the two submissions. -/
theorem submitOrder_idempotent (q : List QueuedJob) (d1 d2 : OrderJobData)
    (hid : d2.orderId = d1.orderId) :
    submitOrder (submitOrder q d1) d2 = submitOrder q d1 ∧
    (q.any (fun j => j.jobId == d1.orderId) = false →
      countJobsFor (submitOrder (submitOrder q d1) d2) d1.orderId = 1) := by
  cases hdup : q.any (fun j => j.jobId == d1.orderId) with
  | true =>
    have h1 : submitOrder q d1 = q := queueAdd_noop q "process-order" d1 d1.orderId 1 hdup
    have hdup2 : q.any (fun j => j.jobId == d2.orderId) = true := by rw [hid]; exact hdup
    have h2 : submitOrder q d2 = q := queueAdd_noop q "process-order" d2 d2.orderId 1 hdup2
    refine ⟨?_, ?_⟩
    · rw [h1]
      exact h2
    · intro hfalse
      simp [hdup] at hfalse
  | false =>
    have h1 : submitOrder q d1 =
        q ++ [{ jobId := d1.orderId, name := "process-order", data := d1, priority := 1 }] :=
      queueAdd_fresh q "process-order" d1 d1.orderId 1 hdup
    have hany2 : (submitOrder q d1).any (fun j => j.jobId == d2.orderId) = true := by
      rw [h1, hid, List.any_append]
      simp
    have h2 : submitOrder (submitOrder q d1) d2 = submitOrder q d1 :=
      queueAdd_noop (submitOrder q d1) "process-order" d2 d2.orderId 1 hany2
    refine ⟨h2, ?_⟩
    intro _
    rw [h2, h1]
    unfold countJobsFor
    rw [List.filter_append]
    have hqnil : q.filter (fun j => j.jobId == d1.orderId) = [] := by
      refine List.filter_eq_nil_iff.mpr ?_
      intro j hj hbeq
      have hany : q.any (fun j2 => j2.jobId == d1.orderId) = true :=
        List.any_eq_true.mpr ⟨j, hj, hbeq⟩
      rw [hany] at hdup
      cases hdup
    rw [hqnil]
    simp

/-- C8 witness: submitting the sample order twice to the empty queue leaves
exactly one job. -/
theorem submitOrder_idempotent_witness :
    sampleOrder.orderId = sampleOrder.orderId ∧
    (submitOrder (submitOrder [] sampleOrder) sampleOrder = submitOrder [] sampleOrder ∧
    (List.any ([] : List QueuedJob) (fun j => j.jobId == sampleOrder.orderId) = false →
      countJobsFor (submitOrder (submitOrder [] sampleOrder) sampleOrder)
        sampleOrder.orderId = 1)) :=
  ⟨rfl, submitOrder_idempotent [] sampleOrder sampleOrder rfl⟩

/-- C10: the registry invariant that every registered order key maps to a
non-empty connection set is preserved by `addConnection`,
`removeConnection`, the heartbeat sweep and `closeAll`; under the invariant
every registered order has a connection count of at least 1, and the
`totalOrders` statistic counts exactly the orders with at least one
connection. -/
theorem wsRegistry_nonempty_invariant (reg : Registry) (hreg : RegOk reg) :
    (∀ orderId : String, ∀ sock : SocketState, RegOk (addConnection reg orderId sock)) ∧
    (∀ orderId : String, ∀ sock : SocketState, RegOk (removeConnection reg orderId sock)) ∧
    RegOk (heartbeatSweep reg) ∧
    RegOk (closeAll reg) ∧
    (∀ orderId : String, hasOrder reg orderId = true →
      1 ≤ getConnectionCount reg orderId) ∧
    statsTotalOrders reg = (reg.filter (fun p => 1 ≤ p.2.length)).length := by
  refine ⟨?_, ?_, ?_, ?_, ?_, ?_⟩
  · intro orderId sock p hp
    unfold addConnection at hp
    by_cases hhas : hasOrder reg orderId
    · rw [if_pos hhas] at hp
      obtain ⟨p0, hp0, hmap⟩ := List.mem_map.mp hp
      by_cases hkey : (p0.1 == orderId) = true
      · rw [if_pos hkey] at hmap
        rw [← hmap]
        simp
      · rw [if_neg hkey] at hmap
        rw [← hmap]
        exact hreg p0 hp0
    · rw [if_neg hhas] at hp
      rcases List.mem_append.mp hp with hp0 | hp0
      · exact hreg p hp0
      · rw [List.mem_singleton.mp hp0]
        simp
  · intro orderId sock p hp
    unfold removeConnection at hp
    by_cases hhas : hasOrder reg orderId
    · rw [if_pos hhas] at hp
      obtain ⟨p0, hp0, hmap⟩ := List.mem_filterMap.mp hp
      by_cases hkey : (p0.1 == orderId) = true
      · rw [if_pos hkey] at hmap
        by_cases hnil : (removeFirstClient sock p0.2).isEmpty
        · simp only [hnil, if_true] at hmap
          cases hmap
        · simp only [hnil, if_false] at hmap
          injection hmap with hp2
          rw [← hp2]
          intro hcontra
          apply hnil
          have hc2 : removeFirstClient sock p0.2 = [] := hcontra
          rw [hc2]
          rfl
      · rw [if_neg hkey] at hmap
        injection hmap with hp2
        rw [← hp2]
        exact hreg p0 hp0
    · rw [if_neg hhas] at hp
      exact hreg p hp
  · intro p hp
    unfold heartbeatSweep at hp
    obtain ⟨p0, _, hmap⟩ := List.mem_filterMap.mp hp
    by_cases hnil : (p0.2.filterMap sweepClient).isEmpty
    · simp only [hnil, if_true] at hmap
      cases hmap
    · simp only [hnil, if_false] at hmap
      injection hmap with hp2
      rw [← hp2]
      intro hcontra
      apply hnil
      have hc2 : p0.2.filterMap sweepClient = [] := hcontra
      rw [hc2]
      rfl
  · intro p hp
    cases hp
  · intro orderId hhas
    obtain ⟨p0, hp0, hkey⟩ := List.any_eq_true.mp hhas
    unfold getConnectionCount connsOf
    cases hfind : reg.find? (fun p => p.1 == orderId) with
    | none =>
      have := List.find?_eq_none.mp hfind p0 hp0
      exact absurd hkey this
    | some pf =>
      have hpf : pf ∈ reg := List.mem_of_find?_eq_some hfind
      have hne := hreg pf hpf
      simpa using List.length_pos.mpr hne
  · unfold statsTotalOrders
    have hfilter : reg.filter (fun p => 1 ≤ p.2.length) = reg := by
      rw [List.filter_eq_self]
      intro p hp
      have := hreg p hp
      simpa using List.length_pos.mpr this
    rw [hfilter]

/-- C10 witness: the invariant and its consequences at a concrete registry. -/
theorem wsRegistry_nonempty_invariant_witness :
    RegOk cexRegistry ∧
    ((∀ orderId : String, ∀ sock : SocketState,
        RegOk (addConnection cexRegistry orderId sock)) ∧
    (∀ orderId : String, ∀ sock : SocketState,
        RegOk (removeConnection cexRegistry orderId sock)) ∧
    RegOk (heartbeatSweep cexRegistry) ∧
    RegOk (closeAll cexRegistry) ∧
    (∀ orderId : String, hasOrder cexRegistry orderId = true →
      1 ≤ getConnectionCount cexRegistry orderId) ∧
    statsTotalOrders cexRegistry =
      (cexRegistry.filter (fun p => 1 ≤ p.2.length)).length) :=
  ⟨by unfold RegOk; decide,
   wsRegistry_nonempty_invariant cexRegistry (by unfold RegOk; decide)⟩

end DexEngine
